import Mathlib

/-!
Verification of the pipeline orchestrator in
`src/cashflow_predictive_bot.py` (class `CashflowPredictiveBot`).

The orchestrator is embedded shallowly: every method becomes a Lean
function from an explicit orchestrator state `St` to a result
`Except Exc α × St`.  Exceptions are modelled by the inductive `Exc`;
`raise` becomes `.error e`, normal return becomes `.ok v`.  External
collaborators that are imported by the module but whose source is not in
the repository snapshot (the Stripe/Plaid API wrappers, `PredictiveModel`,
`KnowledgeBase`) are modelled from the spec's contracts (§6): their
outcomes are supplied by an `Env` record, indexed by the number of
external calls already made (the length of the event trace), so that a
single environment can make distinct calls succeed or fail independently.

Time: `datetime.now()` is modelled by a monotone integer clock stored in
the state; each call to `now` returns the clock and advances it, and
`timedelta(days=365)` is the integer 365, so the trailing window computed
at a call site with clock `c` is `(c - 365, c')` for the two successive
`now` readings.

A crucial point of fidelity: in the Python module the name
`DataProcessingError` is neither defined nor imported, so evaluating the
condition `isinstance(error, DataProcessingError)` in `handle_error`
raises `NameError` at run time.  The embedding reproduces this: for every
error that is not a `ConnectionError` the attempt body raises the
`NameError`, and the `elif` branch's body (refetch + retrain) is
unreachable.
-/

/-- Exceptions that can flow through the orchestrator.  `other` covers
arbitrary further Python exception classes by name.  `dataProcessingError`
is the kind the spec's recovery table routes to refetch-and-retrain;
`isConnectionError` below mirrors `isinstance(e, ConnectionError)`. -/
inductive Exc where
  | connectionError (msg : String)
  | dataProcessingError (msg : String)
  | valueError (msg : String)
  | attributeError (msg : String)
  | nameError (msg : String)
  | notTrainedError (msg : String)
  | other (excName msg : String)
deriving DecidableEq, Repr

/-- `str(e)`: the message carried by an exception. -/
def Exc.msg : Exc → String
  | .connectionError m => m
  | .dataProcessingError m => m
  | .valueError m => m
  | .attributeError m => m
  | .nameError m => m
  | .notTrainedError m => m
  | .other _ m => m

/-- `isinstance(e, ConnectionError)`. -/
def Exc.isConnectionError : Exc → Bool
  | .connectionError _ => true
  | _ => false

/-- A transaction record (timestamp, amount, category), per the spec's
TransactionSet data model. -/
structure Txn where
  timestamp : Int
  amount : Int
  category : String
deriving DecidableEq, Repr

/-- The raw prediction dict returned by `PredictiveModel.predict`:
keys `cashflow`, `low_ci`, `high_ci` (spec §6 model contract). -/
structure PredDict where
  cashflow : Int
  low_ci : Int
  high_ci : Int
deriving DecidableEq, Repr

/-- The raw insights dict returned by `PredictiveModel.generate_insights`:
keys `metric1`, `metric2`. -/
structure Insights where
  metric1 : String
  metric2 : String
deriving DecidableEq, Repr

/-- The dict returned by `predict_cashflow`. -/
structure PredOut where
  predicted_cashflow : Int
  confidence_interval_low : Int
  confidence_interval_high : Int
deriving DecidableEq, Repr

/-- The dict returned by `generate_insights`. -/
structure InsightOut where
  key_metric_1 : String
  key_metric_2 : String
deriving DecidableEq, Repr

/-- The dict returned by `run_analysis` on success: forecasts for 30 and
90 days plus insights.  Its type already enforces that a successful run
carries all three parts. -/
structure RunResult where
  forecast30 : PredOut
  forecast90 : PredOut
  insights : InsightOut
deriving DecidableEq, Repr

/-- An API wrapper object (`StripeAPIWrapper` / `PlaidAPIWrapper`):
an opaque connection handle bound to one provider kind, holding the
credentials it was constructed with. -/
structure Conn where
  kind : String
  credentials : String
deriving DecidableEq, Repr

/-- Observable external calls made by the orchestrator, in order. -/
inductive Event where
  | connCreate (kind : String)
  | getTransactions (start stop : Int)
  | modelTrain
  | modelPredict (days : Nat)
  | modelInsights
  | kbUpdate
  | sleep (secs : Nat)
  | reinitConnection
deriving DecidableEq, Repr

/-- Orchestrator state: the `CashflowPredictiveBot` instance fields
(`api_wrapper`, the model's training status, `error_log`), the process
log written through `logging` (flag `true` = error severity, `false` =
info), the trace of external calls, and the clock backing
`datetime.now()`. -/
structure St where
  apiWrapper : Option Conn
  modelTrained : Bool
  errorLog : List (Int × String)
  procLog : List (Bool × String)
  trace : List Event
  clock : Int
deriving DecidableEq, Repr

/-- `datetime.now()`: read the clock and advance it. -/
def now (st : St) : Int × St :=
  (st.clock, { st with clock := st.clock + 1 })

/-- Outcomes of the external collaborators, indexed by the number of
events already on the trace when the call is made.  `fetch` is
`Connection.get_transactions`, `reinit` is
`Connection.reinitialize_connection`, the rest belong to the model and
the knowledge base. -/
structure Env where
  fetch : Nat → Except Exc (List Txn)
  train : Nat → Except Exc Unit
  predict : Nat → Nat → Except Exc PredDict
  insights : Nat → Except Exc Insights
  kbUpd : Nat → Except Exc Unit
  reinit : Nat → Except Exc Unit

/-- Message of the `AttributeError` raised when `fetch_financial_data`
dereferences `self.api_wrapper` while it is still `None`. -/
def noneGetTransactionsMsg : String :=
  "NoneType object has no attribute get_transactions"

/-- Message of the `AttributeError` raised when `handle_error`
dereferences `self.api_wrapper` while it is still `None`. -/
def noneReinitMsg : String :=
  "NoneType object has no attribute reinitialize_connection"

/-- Message of the `NameError` raised by `isinstance(error,
DataProcessingError)`: the name `DataProcessingError` is not bound
anywhere in the module. -/
def nameErrMsg : String :=
  "name DataProcessingError is not defined"

/-- Message of the `NotTrainedError` raised by the untrained model. -/
def notTrainedMsg : String :=
  "model is not trained"

/-- Modelled from the spec: `PredictiveModel.train` (module
`models/predictive_model` is absent from the snapshot).  Per §3/§4.1 it
fails when the data is empty or malformed (`TrainingError`) and otherwise
transitions the model to `trained`; a residual external failure mode is
drawn from the environment. -/
def modelTrain (env : Env) (data : List Txn) (st : St) : Except Exc Unit × St :=
  let st1 := { st with trace := st.trace ++ [Event.modelTrain] }
  if data.isEmpty then
    (.error (.other "TrainingError" "empty or malformed transaction set"), st1)
  else
    match env.train st.trace.length with
    | .ok _ => (.ok (), { st1 with modelTrained := true })
    | .error e => (.error e, st1)

/-- Modelled from the spec: `PredictiveModel.predict` (module absent).
Per §8, it fails with `NotTrainedError` whenever invoked before any
successful training; when trained the outcome is drawn from the
environment. -/
def modelPredict (env : Env) (days : Nat) (st : St) : Except Exc PredDict × St :=
  let st1 := { st with trace := st.trace ++ [Event.modelPredict days] }
  if st.modelTrained then (env.predict st.trace.length days, st1)
  else (.error (.notTrainedError notTrainedMsg), st1)

/-- Modelled from the spec: `PredictiveModel.generate_insights` (module
absent).  Per §8 it fails with `NotTrainedError` before any successful
training; when trained the outcome is drawn from the environment. -/
def modelInsights (env : Env) (st : St) : Except Exc Insights × St :=
  let st1 := { st with trace := st.trace ++ [Event.modelInsights] }
  if st.modelTrained then (env.insights st.trace.length, st1)
  else (.error (.notTrainedError notTrainedMsg), st1)

/-- Modelled from the spec: `KnowledgeBase.update` (module
`knowledge_baseUpdater` is absent); accepts the mapping and either
succeeds or fails per the environment. -/
def knowledgeBaseUpdate (env : Env) (st : St) : Except Exc Unit × St :=
  let st1 := { st with trace := st.trace ++ [Event.kbUpdate] }
  match env.kbUpd st.trace.length with
  | .ok _ => (.ok (), st1)
  | .error e => (.error e, st1)

/-- `connect_to_api(api_type, **kwargs)`: assigns a fresh wrapper for
`stripe` or `plaid`, otherwise raises `ValueError("Invalid API type
specified")` without touching any state. -/
def connect_to_api (api_type : String) (credentials : String) (st : St) :
    Except Exc Unit × St :=
  if api_type = "stripe" then
    (.ok (), { st with apiWrapper := some ⟨"stripe", credentials⟩,
                       trace := st.trace ++ [Event.connCreate "stripe"] })
  else if api_type = "plaid" then
    (.ok (), { st with apiWrapper := some ⟨"plaid", credentials⟩,
                       trace := st.trace ++ [Event.connCreate "plaid"] })
  else
    (.error (.valueError "Invalid API type specified"), st)

/-- The `except` block of `fetch_financial_data`: `logging.error(...)`
then `self.error_log.append((datetime.now(), str(e)))`. -/
def logFetchFailure (e : Exc) (st : St) : St :=
  { st with
    procLog := st.procLog ++ [(true, "Failed to fetch financial data: " ++ e.msg)],
    errorLog := st.errorLog ++ [(st.clock, e.msg)],
    clock := st.clock + 1 }

/-- `fetch_financial_data(start_date, end_date)`.  If `self.api_wrapper`
is `None` the attribute access raises `AttributeError` before any
provider call; otherwise `get_transactions` is called and its outcome
drawn from the environment.  Any failure is logged, appended to
`error_log` with the current time, and re-raised. -/
def fetch_financial_data (env : Env) (start stop : Int) (st : St) :
    Except Exc (List Txn) × St :=
  match st.apiWrapper with
  | none =>
      let e := Exc.attributeError noneGetTransactionsMsg
      (.error e, logFetchFailure e st)
  | some _ =>
      let st1 := { st with trace := st.trace ++ [Event.getTransactions start stop] }
      match env.fetch st.trace.length with
      | .ok data => (.ok data, st1)
      | .error e => (.error e, logFetchFailure e st1)

/-- `train_model(data)`: delegates to `self.model.train`; on success logs
an info record, on failure logs an error record and re-raises.  Note the
`except` block does not append to `self.error_log`. -/
def train_model (env : Env) (data : List Txn) (st : St) : Except Exc Unit × St :=
  match modelTrain env data st with
  | (.ok _, st1) =>
      (.ok (), { st1 with
        procLog := st1.procLog ++ [(false, "Model training completed successfully")] })
  | (.error e, st1) =>
      (.error e, { st1 with
        procLog := st1.procLog ++ [(true, "Model training failed: " ++ e.msg)] })

/-- `predict_cashflow(forecast_days)`: delegates to `self.model.predict`
and repackages the dict; on failure logs, appends `(now, str(e))` to
`error_log`, and re-raises. -/
def predict_cashflow (env : Env) (forecast_days : Nat) (st : St) :
    Except Exc PredOut × St :=
  match modelPredict env forecast_days st with
  | (.ok p, st1) => (.ok ⟨p.cashflow, p.low_ci, p.high_ci⟩, st1)
  | (.error e, st1) =>
      (.error e, { st1 with
        procLog := st1.procLog ++ [(true, "Cashflow prediction failed: " ++ e.msg)],
        errorLog := st1.errorLog ++ [(st1.clock, e.msg)],
        clock := st1.clock + 1 })

/-- `generate_insights()`: delegates to `self.model.generate_insights`
and repackages the dict; on failure logs an error record and re-raises
without appending to `error_log`. -/
def generate_insights (env : Env) (st : St) : Except Exc InsightOut × St :=
  match modelInsights env st with
  | (.ok i, st1) => (.ok ⟨i.metric1, i.metric2⟩, st1)
  | (.error e, st1) =>
      (.error e, { st1 with
        procLog := st1.procLog ++ [(true, "Insight generation failed: " ++ e.msg)] })

/-- The `except` block of `update_knowledge_base`: `logging.error` only,
no `error_log` append. -/
def logKbFailure (e : Exc) (st : St) : St :=
  { st with
    procLog := st.procLog ++ [(true, "Failed to update knowledge base: " ++ e.msg)] }

/-- `update_knowledge_base()`: recomputes a 30-day prediction and a
trailing-365-day fetch, then forwards both to the knowledge base; the
handler logs and re-raises. -/
def update_knowledge_base (env : Env) (st : St) : Except Exc Unit × St :=
  match predict_cashflow env 30 st with
  | (.error e, st1) => (.error e, logKbFailure e st1)
  | (.ok _, st1) =>
      let (t1, st2) := now st1
      let (t2, st3) := now st2
      match fetch_financial_data env (t1 - 365) t2 st3 with
      | (.error e, st4) => (.error e, logKbFailure e st4)
      | (.ok _, st4) =>
          match knowledgeBaseUpdate env st4 with
          | (.ok _, st5) => (.ok (), st5)
          | (.error e, st5) => (.error e, logKbFailure e st5)

/-- `max_retries` constant of `handle_error`. -/
def max_retries : Nat := 3

/-- One iteration of the `try` body of `handle_error`'s retry loop.
For a `ConnectionError`: `time.sleep(10)` then
`self.api_wrapper.reinitialize_connection()` (an `AttributeError` when
the wrapper is `None`).  For every other error, evaluating
`isinstance(error, DataProcessingError)` raises `NameError` because that
name is unbound in the module, so the refetch-and-retrain body
`self.train_model(self.fetch_financial_data(...))` of that branch is
unreachable. -/
def attemptBody (env : Env) (error : Exc) (st : St) : Except Exc Unit × St :=
  if error.isConnectionError then
    let st1 := { st with trace := st.trace ++ [Event.sleep 10] }
    match st1.apiWrapper with
    | none => (.error (.attributeError noneReinitMsg), st1)
    | some _ =>
        let st2 := { st1 with trace := st1.trace ++ [Event.reinitConnection] }
        match env.reinit st1.trace.length with
        | .ok _ => (.ok (), st2)
        | .error e => (.error e, st2)
  else
    (.error (.nameError nameErrMsg), st)

/-- The retry-log line `logging.error(f"Retrying failed operation.
Attempt {retries}/{max_retries}")`. -/
def retryLine (i : Nat) : Bool × String :=
  (true, "Retrying failed operation. Attempt " ++ toString i ++ "/" ++
    toString max_retries)

/-- Retry-log lines for the first `k` failed attempts. -/
def retryLines (k : Nat) : List (Bool × String) :=
  (List.range k).map (fun i => retryLine (i + 1))

/-- The `while retries < max_retries` loop of `handle_error`, with
`remaining = max_retries - retries` as structural fuel.  A body that
completes without raising hits `break` and returns `None`; a raising body
increments `retries`, writes the retry line, and on
`retries == max_retries` re-raises the current exception. -/
def handleLoop (env : Env) (error : Exc) (retries remaining : Nat) (st : St) :
    Except Exc Unit × St :=
  match remaining with
  | 0 => (.ok (), st)
  | r + 1 =>
      match attemptBody env error st with
      | (.ok _, st1) => (.ok (), st1)
      | (.error e, st1) =>
          let rt := retries + 1
          let st2 := { st1 with procLog := st1.procLog ++ [retryLine rt] }
          if rt = max_retries then (.error e, st2)
          else handleLoop env error rt r st2

/-- `handle_error(error)`: a fresh retry counter starting at 0 for every
invocation. -/
def handle_error (env : Env) (error : Exc) (st : St) : Except Exc Unit × St :=
  handleLoop env error 0 max_retries st

/-- The `except` block of `run_analysis`: `logging.error`, then
`error_log.append((datetime.now(), str(e)))`, then re-raise. -/
def logRunFailure (e : Exc) (st : St) : St :=
  { st with
    procLog := st.procLog ++ [(true, "Main analysis run failed: " ++ e.msg)],
    errorLog := st.errorLog ++ [(st.clock, e.msg)],
    clock := st.clock + 1 }

/-- `run_analysis()`: fetch trailing 365 days, train, predict 30, predict
90, generate insights, update the knowledge base, in that order; the
first raising stage aborts the rest and the handler logs, appends to
`error_log`, and re-raises. -/
def run_analysis (env : Env) (st : St) : Except Exc RunResult × St :=
  let (t1, st1) := now st
  let (t2, st2) := now st1
  match fetch_financial_data env (t1 - 365) t2 st2 with
  | (.error e, st3) => (.error e, logRunFailure e st3)
  | (.ok data, st3) =>
      match train_model env data st3 with
      | (.error e, st4) => (.error e, logRunFailure e st4)
      | (.ok _, st4) =>
          match predict_cashflow env 30 st4 with
          | (.error e, st5) => (.error e, logRunFailure e st5)
          | (.ok f30, st5) =>
              match predict_cashflow env 90 st5 with
              | (.error e, st6) => (.error e, logRunFailure e st6)
              | (.ok f90, st6) =>
                  match generate_insights env st6 with
                  | (.error e, st7) => (.error e, logRunFailure e st7)
                  | (.ok ins, st7) =>
                      match update_knowledge_base env st7 with
                      | (.error e, st8) => (.error e, logRunFailure e st8)
                      | (.ok _, st8) =>
                          (.ok ⟨f30, f90, ins⟩, { st8 with
                            procLog := st8.procLog ++
                              [(false, "Cashflow predictive analysis completed successfully")] })

/-- The full event trace of one successful `run_analysis` starting at
clock `c`: the six pipeline stages in order, the last one
(`update_knowledge_base`) internally re-predicting and re-fetching before
updating the store. -/
def fullTrace (c : Int) : List Event :=
  [Event.getTransactions (c - 365) (c + 1), Event.modelTrain,
   Event.modelPredict 30, Event.modelPredict 90, Event.modelInsights,
   Event.modelPredict 30, Event.getTransactions (c + 2 - 365) (c + 3),
   Event.kbUpdate]

/-- The trace of `k` corrective attempts for a connectivity error:
each attempt sleeps 10 then calls reinitialize. -/
def attemptTrace (k : Nat) : List Event :=
  List.flatten (List.replicate k [Event.sleep 10, Event.reinitConnection])

/- Concrete environments and states used by witnesses and
counterexamples. -/

/-- A sample transaction. -/
def txn0 : Txn := ⟨0, 100, "sales"⟩

/-- Environment in which every external call succeeds. -/
def envOk : Env where
  fetch _ := .ok [txn0]
  train _ := .ok ()
  predict _ _ := .ok ⟨100, 90, 110⟩
  insights _ := .ok ⟨"cash is stable", "runway 12 months"⟩
  kbUpd _ := .ok ()
  reinit _ := .ok ()

/-- Environment in which reinitialization persistently fails with a
connectivity error. -/
def envReinitDown : Env :=
  { envOk with reinit := fun _ => .error (.connectionError "connection reset") }

/-- Environment in which model training persistently fails. -/
def envTrainFail : Env :=
  { envOk with train := fun _ => .error (.other "TrainingError" "schema mismatch") }

/-- Environment in which model prediction persistently fails. -/
def envPredictFail : Env :=
  { envOk with
    predict := fun _ _ => .error (.other "PredictionError" "prediction blew up") }

/-- The freshly constructed bot: no connection, untrained model, empty
logs. -/
def st0 : St := ⟨none, false, [], [], [], 0⟩

/-- A bot holding a stripe connection. -/
def stConn : St := { st0 with apiWrapper := some ⟨"stripe", "key"⟩ }

/-- A connected bot whose model is trained. -/
def stTrained : St := { stConn with modelTrained := true }

/-!
Theorems.
-/

/-- C7: for every provider type string outside {stripe, plaid} and any
credentials, `connect_to_api` fails with `ValueError("Invalid API type
specified")` and returns the state entirely unchanged: no connection is
assigned, and model, error log, process log, trace and clock are all
untouched. -/
theorem connect_invalid_provider (s creds : String) (st : St)
    (h1 : s ≠ "stripe") (h2 : s ≠ "plaid") :
    connect_to_api s creds st =
      (.error (.valueError "Invalid API type specified"), st) := by
  simp [connect_to_api, h1, h2]

/-- Witness for C7: connecting with provider type `paypal` fails with the
`ValueError` and leaves the fresh bot state unchanged. -/
theorem connect_invalid_provider_witness :
    connect_to_api "paypal" "k" st0 =
      (.error (.valueError "Invalid API type specified"), st0) :=
  connect_invalid_provider "paypal" "k" st0 (by decide) (by decide)

/-- C10: calling `fetch_financial_data` while `api_wrapper` is still
`None` raises `AttributeError` (an unclassified kind, not a provider
fetch error), appends exactly one `(timestamp, message)` pair to the
error log before propagating, and makes no provider call (the trace is
unchanged). -/
theorem fetch_before_connect_attribute_error (env : Env) (a b : Int) (st : St)
    (h : st.apiWrapper = none) :
    fetch_financial_data env a b st =
      (.error (.attributeError noneGetTransactionsMsg),
       { st with
         procLog := st.procLog ++
           [(true, "Failed to fetch financial data: " ++ noneGetTransactionsMsg)],
         errorLog := st.errorLog ++ [(st.clock, noneGetTransactionsMsg)],
         clock := st.clock + 1 }) := by
  simp [fetch_financial_data, h, logFetchFailure, Exc.msg]

/-- Witness for C10: fetching on the freshly constructed, never-connected
bot fails with the `AttributeError` and appends one error-log entry. -/
theorem fetch_before_connect_attribute_error_witness :
    fetch_financial_data envOk 0 1 st0 =
      (.error (.attributeError noneGetTransactionsMsg),
       { st0 with
         procLog := [(true, "Failed to fetch financial data: " ++ noneGetTransactionsMsg)],
         errorLog := [(0, noneGetTransactionsMsg)],
         clock := 1 }) := by
  have h := fetch_before_connect_attribute_error envOk 0 1 st0 rfl
  simpa [st0] using h

/-- C8: before any successful training (`modelTrained = false`), both
`predict_cashflow` — for every horizon — and `generate_insights` fail
with `NotTrainedError`. -/
theorem predict_insights_require_training (env : Env) (st : St)
    (h : st.modelTrained = false) :
    (∀ days : Nat,
      (predict_cashflow env days st).1 = .error (.notTrainedError notTrainedMsg)) ∧
    (generate_insights env st).1 = .error (.notTrainedError notTrainedMsg) := by
  constructor
  · intro days
    simp [predict_cashflow, modelPredict, h]
  · simp [generate_insights, modelInsights, h]

/-- Witness for C8: on a connected but untrained bot, `predict_cashflow 30`
and `generate_insights` both fail with `NotTrainedError`. -/
theorem predict_insights_require_training_witness :
    (predict_cashflow envOk 30 stConn).1 = .error (.notTrainedError notTrainedMsg) ∧
    (generate_insights envOk stConn).1 = .error (.notTrainedError notTrainedMsg) :=
  ⟨(predict_insights_require_training envOk stConn rfl).1 30,
   (predict_insights_require_training envOk stConn rfl).2⟩

/-- Evaluating `retryLines 1`. -/
theorem retryLines_one : retryLines 1 = [retryLine 1] := rfl

/-- Evaluating `retryLines 2`. -/
theorem retryLines_two : retryLines 2 = [retryLine 1, retryLine 2] := rfl

/-- Evaluating `retryLines 3`. -/
theorem retryLines_three : retryLines 3 = [retryLine 1, retryLine 2, retryLine 3] := rfl

/-- Evaluating `attemptTrace 1`. -/
theorem attemptTrace_one :
    attemptTrace 1 = [Event.sleep 10, Event.reinitConnection] := rfl

/-- Evaluating `attemptTrace 2`. -/
theorem attemptTrace_two :
    attemptTrace 2 = [Event.sleep 10, Event.reinitConnection,
      Event.sleep 10, Event.reinitConnection] := rfl

/-- Evaluating `attemptTrace 3`. -/
theorem attemptTrace_three :
    attemptTrace 3 = [Event.sleep 10, Event.reinitConnection,
      Event.sleep 10, Event.reinitConnection,
      Event.sleep 10, Event.reinitConnection] := rfl

/-- For an error that is not a `ConnectionError`, each attempt body
raises the `NameError` (the name `DataProcessingError` is unbound), so
`handle_error` consumes all three attempts and re-raises the
`NameError`; only the three retry lines are written and no state field
other than the process log changes. -/
theorem handle_error_nonconn (env : Env) (error : Exc) (st : St)
    (h : error.isConnectionError = false) :
    handle_error env error st =
      (.error (.nameError nameErrMsg),
       { st with procLog := st.procLog ++ retryLines 3 }) := by
  simp [handle_error, handleLoop, attemptBody, h, max_retries, retryLines_three]

/-- For a `ConnectionError` while no connection is assigned, each attempt
sleeps and then raises `AttributeError` dereferencing `None`; after
three attempts the `AttributeError` is re-raised. -/
theorem handle_error_conn_none (env : Env) (error : Exc) (st : St)
    (hc : error.isConnectionError = true) (h : st.apiWrapper = none) :
    handle_error env error st =
      (.error (.attributeError noneReinitMsg),
       { st with
         trace := st.trace ++ [Event.sleep 10, Event.sleep 10, Event.sleep 10],
         procLog := st.procLog ++ retryLines 3 }) := by
  simp [handle_error, handleLoop, attemptBody, hc, h, max_retries, retryLines_three]

/-- For a `ConnectionError` with an assigned connection, if the first
reinitialization succeeds, `handle_error` returns normally after one
sleep-and-reinitialize attempt, writing no retry line. -/
theorem handle_error_conn_ok1 (env : Env) (error : Exc) (st : St) (c : Conn)
    (hc : error.isConnectionError = true) (h : st.apiWrapper = some c)
    (h1 : env.reinit (st.trace.length + 1) = .ok ()) :
    handle_error env error st =
      (.ok (), { st with trace := st.trace ++ attemptTrace 1 }) := by
  simp [handle_error, handleLoop, attemptBody, hc, h, h1, max_retries, attemptTrace_one]

/-- Second attempt succeeds: one retry line, two sleep-and-reinitialize
attempts, normal return. -/
theorem handle_error_conn_ok2 (env : Env) (error : Exc) (st : St) (c : Conn)
    (e1 : Exc)
    (hc : error.isConnectionError = true) (h : st.apiWrapper = some c)
    (h1 : env.reinit (st.trace.length + 1) = .error e1)
    (h2 : env.reinit (st.trace.length + 3) = .ok ()) :
    handle_error env error st =
      (.ok (), { st with trace := st.trace ++ attemptTrace 2,
                         procLog := st.procLog ++ retryLines 1 }) := by
  simp [handle_error, handleLoop, attemptBody, hc, h, h1, h2, max_retries,
    attemptTrace_two, retryLines_one]

/-- Third attempt succeeds: two retry lines, three sleep-and-reinitialize
attempts, normal return. -/
theorem handle_error_conn_ok3 (env : Env) (error : Exc) (st : St) (c : Conn)
    (e1 e2 : Exc)
    (hc : error.isConnectionError = true) (h : st.apiWrapper = some c)
    (h1 : env.reinit (st.trace.length + 1) = .error e1)
    (h2 : env.reinit (st.trace.length + 3) = .error e2)
    (h3 : env.reinit (st.trace.length + 5) = .ok ()) :
    handle_error env error st =
      (.ok (), { st with trace := st.trace ++ attemptTrace 3,
                         procLog := st.procLog ++ retryLines 2 }) := by
  simp [handle_error, handleLoop, attemptBody, hc, h, h1, h2, h3, max_retries,
    attemptTrace_three, retryLines_two]

/-- All three reinitializations fail: three retry lines, and the error of
the final attempt is re-raised. -/
theorem handle_error_conn_exhausted (env : Env) (error : Exc) (st : St) (c : Conn)
    (e1 e2 e3 : Exc)
    (hc : error.isConnectionError = true) (h : st.apiWrapper = some c)
    (h1 : env.reinit (st.trace.length + 1) = .error e1)
    (h2 : env.reinit (st.trace.length + 3) = .error e2)
    (h3 : env.reinit (st.trace.length + 5) = .error e3) :
    handle_error env error st =
      (.error e3, { st with trace := st.trace ++ attemptTrace 3,
                            procLog := st.procLog ++ retryLines 3 }) := by
  simp [handle_error, handleLoop, attemptBody, hc, h, h1, h2, h3, max_retries,
    attemptTrace_three, retryLines_three]

/-- Evaluating `retryLines 0`. -/
theorem retryLines_zero : retryLines 0 = [] := rfl

/-- C2: for every error and every state (so also for any repeated
invocation: the attempt counter restarts at `Attempt 1/3` each call,
nothing in the state carries a counter), `handle_error` makes at most 3
corrective attempts (`k` failed attempts write exactly the retry lines
`1/3 … k/3`); whenever fewer than 3 attempts fail it returns normally
without invoking fetch, train, predict, insights or the knowledge base
(its trace extension holds only sleep/reinitialize events); and whenever
it raises, all 3 attempts failed and the raised error is exactly the
error of the final corrective attempt (the `NameError` for unclassified
errors, the `AttributeError` when no connection is assigned, otherwise
the error returned by the third reinitialization). -/
theorem handleError_retry_contract (env : Env) (error : Exc) (st : St) :
    ∃ k, k ≤ 3 ∧
      (handle_error env error st).2.procLog = st.procLog ++ retryLines k ∧
      (k ≤ 2 → (handle_error env error st).1 = .ok ()) ∧
      (∀ ev ∈ (handle_error env error st).2.trace.drop st.trace.length,
        ev = Event.sleep 10 ∨ ev = Event.reinitConnection) ∧
      (∀ e, (handle_error env error st).1 = .error e →
        k = 3 ∧
        (error.isConnectionError = false → e = .nameError nameErrMsg) ∧
        (error.isConnectionError = true → st.apiWrapper = none →
          e = .attributeError noneReinitMsg) ∧
        (∀ c, error.isConnectionError = true → st.apiWrapper = some c →
          env.reinit (st.trace.length + 5) = .error e)) := by
  cases hc : error.isConnectionError with
  | false =>
      rw [handle_error_nonconn env error st hc]
      refine ⟨3, by norm_num, rfl, ?_, ?_, ?_⟩
      · intro hk; exact absurd hk (by norm_num)
      · simp [List.drop_length]
      · intro e he
        simp only [Except.error.injEq] at he
        refine ⟨rfl, fun _ => he.symm, fun hct _ => ?_, fun c hct _ => ?_⟩
        · exact absurd hct (by simp)
        · exact absurd hct (by simp)
  | true =>
      cases hA : st.apiWrapper with
      | none =>
          rw [handle_error_conn_none env error st hc hA]
          refine ⟨3, by norm_num, rfl, ?_, ?_, ?_⟩
          · intro hk; exact absurd hk (by norm_num)
          · simp [List.drop_left]
          · intro e he
            simp only [Except.error.injEq] at he
            refine ⟨rfl, fun hcf => ?_, fun _ _ => he.symm, fun c _ hsome => ?_⟩
            · exact absurd hcf (by simp)
            · exact absurd hsome (by simp)
      | some c =>
          cases hr1 : env.reinit (st.trace.length + 1) with
          | ok u =>
              cases u
              rw [handle_error_conn_ok1 env error st c hc hA hr1]
              refine ⟨0, by norm_num, by simp [retryLines_zero], fun _ => rfl, ?_, ?_⟩
              · simp [List.drop_left, attemptTrace_one]
              · intro e he; exact absurd he (by simp)
          | error e1 =>
              cases hr2 : env.reinit (st.trace.length + 3) with
              | ok u =>
                  cases u
                  rw [handle_error_conn_ok2 env error st c e1 hc hA hr1 hr2]
                  refine ⟨1, by norm_num, rfl, fun _ => rfl, ?_, ?_⟩
                  · simp [List.drop_left, attemptTrace_two]
                  · intro e he; exact absurd he (by simp)
              | error e2 =>
                  cases hr3 : env.reinit (st.trace.length + 5) with
                  | ok u =>
                      cases u
                      rw [handle_error_conn_ok3 env error st c e1 e2 hc hA hr1 hr2 hr3]
                      refine ⟨2, by norm_num, rfl, fun _ => rfl, ?_, ?_⟩
                      · simp [List.drop_left, attemptTrace_three]
                      · intro e he; exact absurd he (by simp)
                  | error e3 =>
                      rw [handle_error_conn_exhausted env error st c e1 e2 e3 hc hA hr1 hr2 hr3]
                      refine ⟨3, by norm_num, rfl, ?_, ?_, ?_⟩
                      · intro hk; exact absurd hk (by norm_num)
                      · simp [List.drop_left, attemptTrace_three]
                      · intro e he
                        simp only [Except.error.injEq] at he
                        refine ⟨rfl, fun hcf => ?_, fun _ hnone => ?_, fun c2 _ _ => ?_⟩
                        · exact absurd hcf (by simp)
                        · exact absurd hnone (by simp)
                        · rw [he]

/-- Witness for C2: with a connected bot and persistently failing
reinitialization, the contract instantiates concretely: three retry
lines are written (all three corrective attempts failed) before the
last error is re-raised. -/
theorem handleError_retry_contract_witness :
    (handle_error envReinitDown (.connectionError "timeout") stConn).2.procLog =
      stConn.procLog ++ retryLines 3 := by
  obtain ⟨k, hk, hlog, hok, hev, herr⟩ :=
    handleError_retry_contract envReinitDown (.connectionError "timeout") stConn
  have hk3 : k = 3 :=
    (herr (.connectionError "connection reset") rfl).1
  rw [hlog, hk3]

/-- C9: for a `ConnectionError` with an active connection, every
corrective attempt is exactly a 10-unit sleep followed by an in-place
reinitialization of the existing connection (the trace extension is
`attemptTrace k`, sleep-then-reinitialize repeated); afterwards
`api_wrapper` still holds the very same connection object and no
`connCreate` event ever occurs; reinitialize runs at least once
(`1 ≤ k`) before a normal return and at most `max_retries` times
(`k ≤ 3`), with `k = 3` whenever the call ends exhausted. -/
theorem handleError_conn_reinit_frame (env : Env) (st : St) (c : Conn) (m : String)
    (h : st.apiWrapper = some c) :
    ∃ k, 1 ≤ k ∧ k ≤ 3 ∧
      (handle_error env (.connectionError m) st).2.trace = st.trace ++ attemptTrace k ∧
      (handle_error env (.connectionError m) st).2.apiWrapper = some c ∧
      (∀ ev ∈ attemptTrace k, ev = Event.sleep 10 ∨ ev = Event.reinitConnection) ∧
      (∀ e, (handle_error env (.connectionError m) st).1 = .error e → k = 3) := by
  cases hr1 : env.reinit (st.trace.length + 1) with
  | ok u =>
      cases u
      rw [handle_error_conn_ok1 env (.connectionError m) st c rfl h hr1]
      refine ⟨1, by norm_num, by norm_num, rfl, h ▸ rfl, ?_, ?_⟩
      · simp [attemptTrace_one]
      · intro e he; exact absurd he (by simp)
  | error e1 =>
      cases hr2 : env.reinit (st.trace.length + 3) with
      | ok u =>
          cases u
          rw [handle_error_conn_ok2 env (.connectionError m) st c e1 rfl h hr1 hr2]
          refine ⟨2, by norm_num, by norm_num, rfl, h ▸ rfl, ?_, ?_⟩
          · simp [attemptTrace_two]
          · intro e he; exact absurd he (by simp)
      | error e2 =>
          cases hr3 : env.reinit (st.trace.length + 5) with
          | ok u =>
              cases u
              rw [handle_error_conn_ok3 env (.connectionError m) st c e1 e2 rfl h hr1 hr2 hr3]
              refine ⟨3, by norm_num, by norm_num, rfl, h ▸ rfl, ?_, ?_⟩
              · simp [attemptTrace_three]
              · intro e he; exact absurd he (by simp)
          | error e3 =>
              rw [handle_error_conn_exhausted env (.connectionError m) st c e1 e2 e3 rfl h hr1 hr2 hr3]
              refine ⟨3, by norm_num, by norm_num, rfl, h ▸ rfl, ?_, fun e _ => rfl⟩
              simp [attemptTrace_three]

/-- Witness for C9: on the connected bot, after a connectivity recovery
the `api_wrapper` field still holds the very same connection object. -/
theorem handleError_conn_reinit_frame_witness :
    (handle_error envOk (.connectionError "timeout") stConn).2.apiWrapper =
      some ⟨"stripe", "key"⟩ := by
  obtain ⟨k, hk1, hk3, htr, hapi, hev, herr⟩ :=
    handleError_conn_reinit_frame envOk stConn ⟨"stripe", "key"⟩ "timeout" rfl
  exact hapi

/-- C3 counterexample: a persistent connectivity failure (every
reinitialization attempt raises `ConnectionError("connection reset")`)
on the connected bot does end exhausted re-raising the connectivity
kind, but the orchestrator's error log receives **zero** appends, not
the 3 the claim asserts — `handle_error`'s except block only writes
`logging.error` lines and never touches `self.error_log`. -/
theorem handleError_persistent_conn_counterexample :
    (handle_error envReinitDown (.connectionError "timeout") stConn).1 =
      .error (.connectionError "connection reset") ∧
    (handle_error envReinitDown (.connectionError "timeout") stConn).2.errorLog = [] ∧
    ¬ ((handle_error envReinitDown (.connectionError "timeout") stConn).2.errorLog.length
        = stConn.errorLog.length + 3) := by
  refine ⟨rfl, rfl, ?_⟩
  intro hcontra
  rw [show (handle_error envReinitDown (.connectionError "timeout") stConn).2.errorLog
        = [] from rfl] at hcontra
  simp [stConn, st0] at hcontra

/-- C3 amended: three consecutive corrective attempts for a persistent
`ConnectivityError` end exhausted and re-raise the last connectivity
error (the original error kind); they record exactly 3 error-severity
retry records in the process log, while the orchestrator's ErrorLog
(`self.error_log`) receives no append at all. -/
theorem handleError_persistent_conn_amended (env : Env) (st : St) (c : Conn)
    (m rmsg : String)
    (h : st.apiWrapper = some c)
    (hp : ∀ i, env.reinit i = .error (.connectionError rmsg)) :
    handle_error env (.connectionError m) st =
      (.error (.connectionError rmsg),
       { st with trace := st.trace ++ attemptTrace 3,
                 procLog := st.procLog ++ retryLines 3 }) :=
  handle_error_conn_exhausted env (.connectionError m) st c _ _ _ rfl h (hp _) (hp _) (hp _)

/-- Witness for C3's amended claim: concretely, the persistent failure
environment on the connected bot yields the exhausted connectivity error
with 3 retry lines and an untouched (empty) error log. -/
theorem handleError_persistent_conn_amended_witness :
    handle_error envReinitDown (.connectionError "timeout") stConn =
      (.error (.connectionError "connection reset"),
       { stConn with trace := attemptTrace 3, procLog := retryLines 3 }) := by
  have h := handleError_persistent_conn_amended envReinitDown stConn
    ⟨"stripe", "key"⟩ "timeout" "connection reset" rfl (fun _ => rfl)
  simpa [stConn, st0] using h

/-- C4 (code bug): for an error that is neither a `ConnectionError` nor
(hypothetically) a `DataProcessingError` — here `ValueError("boom")` —
the claim and spec say `handle_error` performs a no-op retry and returns
normally; the code instead raises `NameError` when evaluating
`isinstance(error, DataProcessingError)` (the name is unbound in the
module), consumes all 3 attempts on that `NameError`, and re-raises it. -/
theorem handleError_unclassified_raises_nameerror :
    handle_error envOk (.valueError "boom") st0 =
      (.error (.nameError nameErrMsg), { st0 with procLog := retryLines 3 }) := by
  have h := handle_error_nonconn envOk (.valueError "boom") st0 rfl
  simpa [st0] using h

/-- C5 (code bug): for an error of the `DataProcessingError` kind the
claim and spec prescribe one fresh fetch-then-train cycle per corrective
attempt; in the code the `elif isinstance(error, DataProcessingError)`
test itself raises `NameError` (unbound name), so the refetch-and-retrain
body is unreachable: on the connected bot with an all-success
environment, the trace stays empty (no `getTransactions`, no
`modelTrain`), the model stays untrained, and `handle_error` re-raises
the `NameError` after its three attempts. -/
theorem handleError_dataprocessing_dead_branch :
    (handle_error envOk (.dataProcessingError "bad rows") stConn).1 =
      .error (.nameError nameErrMsg) ∧
    (handle_error envOk (.dataProcessingError "bad rows") stConn).2.trace = [] ∧
    (handle_error envOk (.dataProcessingError "bad rows") stConn).2.modelTrained = false ∧
    (handle_error envOk (.dataProcessingError "bad rows") stConn).2.procLog =
      retryLines 3 :=
  ⟨rfl, rfl, rfl, rfl⟩

/-- Characterization of `run_analysis`, by cases over the outcome of every
external call: a successful run performs exactly the eight external calls
of `fullTrace` in order and leaves the error log untouched; a failing run
performs a prefix of that sequence (so no stage after the failing one is
ever invoked and no stage is retried), propagates the stage's error
unchanged, and appends error-log entries that all carry the failing
error's message, the last one added by `run_analysis`'s own handler. -/
theorem run_analysis_char (env : Env) (st : St) :
    (∀ r, (run_analysis env st).1 = .ok r →
       (run_analysis env st).2.trace = st.trace ++ fullTrace st.clock ∧
       (run_analysis env st).2.errorLog = st.errorLog) ∧
    (∀ e, (run_analysis env st).1 = .error e →
       (∃ Δ Δ2, (run_analysis env st).2.trace = st.trace ++ Δ ∧
          Δ ++ Δ2 = fullTrace st.clock) ∧
       (∃ L t, (run_analysis env st).2.errorLog = st.errorLog ++ L ++ [(t, e.msg)] ∧
          ∀ q ∈ L, q.2 = e.msg)) := by
  cases hA : st.apiWrapper with
  | none =>
      constructor
      · intro r hr
        simp [run_analysis, now, fetch_financial_data, train_model, modelTrain, predict_cashflow, modelPredict, generate_insights, modelInsights, update_knowledge_base, knowledgeBaseUpdate, logFetchFailure, logKbFailure, logRunFailure, hA] at hr
      · intro e he
        simp [run_analysis, now, fetch_financial_data, train_model, modelTrain, predict_cashflow, modelPredict, generate_insights, modelInsights, update_knowledge_base, knowledgeBaseUpdate, logFetchFailure, logKbFailure, logRunFailure, hA] at he
        subst he
        refine ⟨⟨[],
            [              Event.getTransactions (st.clock - 365) (st.clock + 1),
              Event.modelTrain,
              Event.modelPredict 30,
              Event.modelPredict 90,
              Event.modelInsights,
              Event.modelPredict 30,
              Event.getTransactions (st.clock + 2 - 365) (st.clock + 3),
              Event.kbUpdate], ?_, ?_⟩,
          [(st.clock + 2, noneGetTransactionsMsg)], st.clock + 3, ?_, ?_⟩ <;>
          simp [run_analysis, now, fetch_financial_data, train_model, modelTrain, predict_cashflow, modelPredict, generate_insights, modelInsights, update_knowledge_base, knowledgeBaseUpdate, logFetchFailure, logKbFailure, logRunFailure, hA, fullTrace, Exc.msg, add_assoc]
  | some c =>
    cases hf : env.fetch st.trace.length with
    | error e0 =>
        constructor
        · intro r hr
          simp [run_analysis, now, fetch_financial_data, train_model, modelTrain, predict_cashflow, modelPredict, generate_insights, modelInsights, update_knowledge_base, knowledgeBaseUpdate, logFetchFailure, logKbFailure, logRunFailure, hA, hf] at hr
        · intro e he
          simp [run_analysis, now, fetch_financial_data, train_model, modelTrain, predict_cashflow, modelPredict, generate_insights, modelInsights, update_knowledge_base, knowledgeBaseUpdate, logFetchFailure, logKbFailure, logRunFailure, hA, hf] at he
          subst he
          refine ⟨⟨[                Event.getTransactions (st.clock - 365) (st.clock + 1)],
              [                Event.modelTrain,
                Event.modelPredict 30,
                Event.modelPredict 90,
                Event.modelInsights,
                Event.modelPredict 30,
                Event.getTransactions (st.clock + 2 - 365) (st.clock + 3),
                Event.kbUpdate], ?_, ?_⟩,
            [(st.clock + 2, e0.msg)], st.clock + 3, ?_, ?_⟩ <;>
            simp [run_analysis, now, fetch_financial_data, train_model, modelTrain, predict_cashflow, modelPredict, generate_insights, modelInsights, update_knowledge_base, knowledgeBaseUpdate, logFetchFailure, logKbFailure, logRunFailure, hA, hf, fullTrace, Exc.msg, add_assoc]
    | ok data =>
      cases data with
      | nil =>
          constructor
          · intro r hr
            simp [run_analysis, now, fetch_financial_data, train_model, modelTrain, predict_cashflow, modelPredict, generate_insights, modelInsights, update_knowledge_base, knowledgeBaseUpdate, logFetchFailure, logKbFailure, logRunFailure, hA, hf] at hr
          · intro e he
            simp [run_analysis, now, fetch_financial_data, train_model, modelTrain, predict_cashflow, modelPredict, generate_insights, modelInsights, update_knowledge_base, knowledgeBaseUpdate, logFetchFailure, logKbFailure, logRunFailure, hA, hf] at he
            subst he
            refine ⟨⟨[                  Event.getTransactions (st.clock - 365) (st.clock + 1),
                  Event.modelTrain],
                [                  Event.modelPredict 30,
                  Event.modelPredict 90,
                  Event.modelInsights,
                  Event.modelPredict 30,
                  Event.getTransactions (st.clock + 2 - 365) (st.clock + 3),
                  Event.kbUpdate], ?_, ?_⟩,
              [], st.clock + 2, ?_, ?_⟩ <;>
              simp [run_analysis, now, fetch_financial_data, train_model, modelTrain, predict_cashflow, modelPredict, generate_insights, modelInsights, update_knowledge_base, knowledgeBaseUpdate, logFetchFailure, logKbFailure, logRunFailure, hA, hf, fullTrace, Exc.msg, add_assoc]
      | cons x xs =>
        cases ht : env.train (st.trace.length + 1) with
        | error e0 =>
            constructor
            · intro r hr
              simp [run_analysis, now, fetch_financial_data, train_model, modelTrain, predict_cashflow, modelPredict, generate_insights, modelInsights, update_knowledge_base, knowledgeBaseUpdate, logFetchFailure, logKbFailure, logRunFailure, hA, hf, ht] at hr
            · intro e he
              simp [run_analysis, now, fetch_financial_data, train_model, modelTrain, predict_cashflow, modelPredict, generate_insights, modelInsights, update_knowledge_base, knowledgeBaseUpdate, logFetchFailure, logKbFailure, logRunFailure, hA, hf, ht] at he
              subst he
              refine ⟨⟨[                    Event.getTransactions (st.clock - 365) (st.clock + 1),
                    Event.modelTrain],
                  [                    Event.modelPredict 30,
                    Event.modelPredict 90,
                    Event.modelInsights,
                    Event.modelPredict 30,
                    Event.getTransactions (st.clock + 2 - 365) (st.clock + 3),
                    Event.kbUpdate], ?_, ?_⟩,
                [], st.clock + 2, ?_, ?_⟩ <;>
                simp [run_analysis, now, fetch_financial_data, train_model, modelTrain, predict_cashflow, modelPredict, generate_insights, modelInsights, update_knowledge_base, knowledgeBaseUpdate, logFetchFailure, logKbFailure, logRunFailure, hA, hf, ht, fullTrace, Exc.msg, add_assoc]
        | ok u0 =>
          cases u0
          cases hp30 : env.predict (st.trace.length + 2) 30 with
          | error e0 =>
              constructor
              · intro r hr
                simp [run_analysis, now, fetch_financial_data, train_model, modelTrain, predict_cashflow, modelPredict, generate_insights, modelInsights, update_knowledge_base, knowledgeBaseUpdate, logFetchFailure, logKbFailure, logRunFailure, hA, hf, ht, hp30] at hr
              · intro e he
                simp [run_analysis, now, fetch_financial_data, train_model, modelTrain, predict_cashflow, modelPredict, generate_insights, modelInsights, update_knowledge_base, knowledgeBaseUpdate, logFetchFailure, logKbFailure, logRunFailure, hA, hf, ht, hp30] at he
                subst he
                refine ⟨⟨[                      Event.getTransactions (st.clock - 365) (st.clock + 1),
                      Event.modelTrain,
                      Event.modelPredict 30],
                    [                      Event.modelPredict 90,
                      Event.modelInsights,
                      Event.modelPredict 30,
                      Event.getTransactions (st.clock + 2 - 365) (st.clock + 3),
                      Event.kbUpdate], ?_, ?_⟩,
                  [(st.clock + 2, e0.msg)], st.clock + 3, ?_, ?_⟩ <;>
                  simp [run_analysis, now, fetch_financial_data, train_model, modelTrain, predict_cashflow, modelPredict, generate_insights, modelInsights, update_knowledge_base, knowledgeBaseUpdate, logFetchFailure, logKbFailure, logRunFailure, hA, hf, ht, hp30, fullTrace, Exc.msg, add_assoc]
          | ok p30 =>
            cases hp90 : env.predict (st.trace.length + 3) 90 with
            | error e0 =>
                constructor
                · intro r hr
                  simp [run_analysis, now, fetch_financial_data, train_model, modelTrain, predict_cashflow, modelPredict, generate_insights, modelInsights, update_knowledge_base, knowledgeBaseUpdate, logFetchFailure, logKbFailure, logRunFailure, hA, hf, ht, hp30, hp90] at hr
                · intro e he
                  simp [run_analysis, now, fetch_financial_data, train_model, modelTrain, predict_cashflow, modelPredict, generate_insights, modelInsights, update_knowledge_base, knowledgeBaseUpdate, logFetchFailure, logKbFailure, logRunFailure, hA, hf, ht, hp30, hp90] at he
                  subst he
                  refine ⟨⟨[                        Event.getTransactions (st.clock - 365) (st.clock + 1),
                        Event.modelTrain,
                        Event.modelPredict 30,
                        Event.modelPredict 90],
                      [                        Event.modelInsights,
                        Event.modelPredict 30,
                        Event.getTransactions (st.clock + 2 - 365) (st.clock + 3),
                        Event.kbUpdate], ?_, ?_⟩,
                    [(st.clock + 2, e0.msg)], st.clock + 3, ?_, ?_⟩ <;>
                    simp [run_analysis, now, fetch_financial_data, train_model, modelTrain, predict_cashflow, modelPredict, generate_insights, modelInsights, update_knowledge_base, knowledgeBaseUpdate, logFetchFailure, logKbFailure, logRunFailure, hA, hf, ht, hp30, hp90, fullTrace, Exc.msg, add_assoc]
            | ok p90 =>
              cases hins : env.insights (st.trace.length + 4) with
              | error e0 =>
                  constructor
                  · intro r hr
                    simp [run_analysis, now, fetch_financial_data, train_model, modelTrain, predict_cashflow, modelPredict, generate_insights, modelInsights, update_knowledge_base, knowledgeBaseUpdate, logFetchFailure, logKbFailure, logRunFailure, hA, hf, ht, hp30, hp90, hins] at hr
                  · intro e he
                    simp [run_analysis, now, fetch_financial_data, train_model, modelTrain, predict_cashflow, modelPredict, generate_insights, modelInsights, update_knowledge_base, knowledgeBaseUpdate, logFetchFailure, logKbFailure, logRunFailure, hA, hf, ht, hp30, hp90, hins] at he
                    subst he
                    refine ⟨⟨[                          Event.getTransactions (st.clock - 365) (st.clock + 1),
                          Event.modelTrain,
                          Event.modelPredict 30,
                          Event.modelPredict 90,
                          Event.modelInsights],
                        [                          Event.modelPredict 30,
                          Event.getTransactions (st.clock + 2 - 365) (st.clock + 3),
                          Event.kbUpdate], ?_, ?_⟩,
                      [], st.clock + 2, ?_, ?_⟩ <;>
                      simp [run_analysis, now, fetch_financial_data, train_model, modelTrain, predict_cashflow, modelPredict, generate_insights, modelInsights, update_knowledge_base, knowledgeBaseUpdate, logFetchFailure, logKbFailure, logRunFailure, hA, hf, ht, hp30, hp90, hins, fullTrace, Exc.msg, add_assoc]
              | ok ins =>
                cases hp30b : env.predict (st.trace.length + 5) 30 with
                | error e0 =>
                    constructor
                    · intro r hr
                      simp [run_analysis, now, fetch_financial_data, train_model, modelTrain, predict_cashflow, modelPredict, generate_insights, modelInsights, update_knowledge_base, knowledgeBaseUpdate, logFetchFailure, logKbFailure, logRunFailure, hA, hf, ht, hp30, hp90, hins, hp30b] at hr
                    · intro e he
                      simp [run_analysis, now, fetch_financial_data, train_model, modelTrain, predict_cashflow, modelPredict, generate_insights, modelInsights, update_knowledge_base, knowledgeBaseUpdate, logFetchFailure, logKbFailure, logRunFailure, hA, hf, ht, hp30, hp90, hins, hp30b] at he
                      subst he
                      refine ⟨⟨[                            Event.getTransactions (st.clock - 365) (st.clock + 1),
                            Event.modelTrain,
                            Event.modelPredict 30,
                            Event.modelPredict 90,
                            Event.modelInsights,
                            Event.modelPredict 30],
                          [                            Event.getTransactions (st.clock + 2 - 365) (st.clock + 3),
                            Event.kbUpdate], ?_, ?_⟩,
                        [(st.clock + 2, e0.msg)], st.clock + 3, ?_, ?_⟩ <;>
                        simp [run_analysis, now, fetch_financial_data, train_model, modelTrain, predict_cashflow, modelPredict, generate_insights, modelInsights, update_knowledge_base, knowledgeBaseUpdate, logFetchFailure, logKbFailure, logRunFailure, hA, hf, ht, hp30, hp90, hins, hp30b, fullTrace, Exc.msg, add_assoc]
                | ok p30b =>
                  cases hf2 : env.fetch (st.trace.length + 6) with
                  | error e0 =>
                      constructor
                      · intro r hr
                        simp [run_analysis, now, fetch_financial_data, train_model, modelTrain, predict_cashflow, modelPredict, generate_insights, modelInsights, update_knowledge_base, knowledgeBaseUpdate, logFetchFailure, logKbFailure, logRunFailure, hA, hf, ht, hp30, hp90, hins, hp30b, hf2] at hr
                      · intro e he
                        simp [run_analysis, now, fetch_financial_data, train_model, modelTrain, predict_cashflow, modelPredict, generate_insights, modelInsights, update_knowledge_base, knowledgeBaseUpdate, logFetchFailure, logKbFailure, logRunFailure, hA, hf, ht, hp30, hp90, hins, hp30b, hf2] at he
                        subst he
                        refine ⟨⟨[                              Event.getTransactions (st.clock - 365) (st.clock + 1),
                              Event.modelTrain,
                              Event.modelPredict 30,
                              Event.modelPredict 90,
                              Event.modelInsights,
                              Event.modelPredict 30,
                              Event.getTransactions (st.clock + 2 - 365) (st.clock + 3)],
                            [                              Event.kbUpdate], ?_, ?_⟩,
                          [(st.clock + 4, e0.msg)], st.clock + 5, ?_, ?_⟩ <;>
                          simp [run_analysis, now, fetch_financial_data, train_model, modelTrain, predict_cashflow, modelPredict, generate_insights, modelInsights, update_knowledge_base, knowledgeBaseUpdate, logFetchFailure, logKbFailure, logRunFailure, hA, hf, ht, hp30, hp90, hins, hp30b, hf2, fullTrace, Exc.msg, add_assoc]
                  | ok data2 =>
                    cases hkb : env.kbUpd (st.trace.length + 7) with
                    | error e0 =>
                        constructor
                        · intro r hr
                          simp [run_analysis, now, fetch_financial_data, train_model, modelTrain, predict_cashflow, modelPredict, generate_insights, modelInsights, update_knowledge_base, knowledgeBaseUpdate, logFetchFailure, logKbFailure, logRunFailure, hA, hf, ht, hp30, hp90, hins, hp30b, hf2, hkb] at hr
                        · intro e he
                          simp [run_analysis, now, fetch_financial_data, train_model, modelTrain, predict_cashflow, modelPredict, generate_insights, modelInsights, update_knowledge_base, knowledgeBaseUpdate, logFetchFailure, logKbFailure, logRunFailure, hA, hf, ht, hp30, hp90, hins, hp30b, hf2, hkb] at he
                          subst he
                          refine ⟨⟨[                                Event.getTransactions (st.clock - 365) (st.clock + 1),
                                Event.modelTrain,
                                Event.modelPredict 30,
                                Event.modelPredict 90,
                                Event.modelInsights,
                                Event.modelPredict 30,
                                Event.getTransactions (st.clock + 2 - 365) (st.clock + 3),
                                Event.kbUpdate],
                              [], ?_, ?_⟩,
                            [], st.clock + 4, ?_, ?_⟩ <;>
                            simp [run_analysis, now, fetch_financial_data, train_model, modelTrain, predict_cashflow, modelPredict, generate_insights, modelInsights, update_knowledge_base, knowledgeBaseUpdate, logFetchFailure, logKbFailure, logRunFailure, hA, hf, ht, hp30, hp90, hins, hp30b, hf2, hkb, fullTrace, Exc.msg, add_assoc]
                    | ok u1 =>
                      cases u1
                      constructor
                      · intro r hr
                        refine ⟨?_, ?_⟩ <;>
                          simp [run_analysis, now, fetch_financial_data, train_model, modelTrain, predict_cashflow, modelPredict, generate_insights, modelInsights, update_knowledge_base, knowledgeBaseUpdate, logFetchFailure, logKbFailure, logRunFailure, hA, hf, ht, hp30, hp90, hins, hp30b, hf2, hkb,
                            fullTrace, add_assoc]
                      · intro e he
                        simp [run_analysis, now, fetch_financial_data, train_model, modelTrain, predict_cashflow, modelPredict, generate_insights, modelInsights, update_knowledge_base, knowledgeBaseUpdate, logFetchFailure, logKbFailure, logRunFailure, hA, hf, ht, hp30, hp90, hins, hp30b, hf2, hkb] at he

/-- C1: `run_analysis` is all-or-nothing and fully sequential.  For every
environment and state: when it returns normally the caller receives the
complete forecasts(30, 90) + insights structure (enforced by the
`RunResult` type) and the run performed exactly
fetch(trailing 365 days) → train → predict 30 → predict 90 → insights →
knowledge-base update, in that fixed order with no retry; when any stage
fails, the performed calls are a prefix of that sequence — no later stage
is ever invoked — the error is appended to the error log by
`run_analysis`'s handler and propagated to the caller unchanged, so the
caller never sees a partial result. -/
theorem runAnalysis_all_or_nothing (env : Env) (st : St) :
    (∀ r, (run_analysis env st).1 = .ok r →
       (run_analysis env st).2.trace = st.trace ++ fullTrace st.clock ∧
       (run_analysis env st).2.errorLog = st.errorLog) ∧
    (∀ e, (run_analysis env st).1 = .error e →
       (∃ Δ Δ2, (run_analysis env st).2.trace = st.trace ++ Δ ∧
          Δ ++ Δ2 = fullTrace st.clock) ∧
       (∃ L t, (run_analysis env st).2.errorLog = st.errorLog ++ L ++ [(t, e.msg)] ∧
          ∀ q ∈ L, q.2 = e.msg)) :=
  run_analysis_char env st

/-- Witness for C1: on the connected bot with an all-success environment,
the run performs exactly the full ordered trace and appends nothing to
the error log. -/
theorem runAnalysis_all_or_nothing_witness :
    (run_analysis envOk stConn).2.trace = stConn.trace ++ fullTrace stConn.clock ∧
    (run_analysis envOk stConn).2.errorLog = stConn.errorLog :=
  (runAnalysis_all_or_nothing envOk stConn).1
    ⟨⟨100, 90, 110⟩, ⟨100, 90, 110⟩, ⟨"cash is stable", "runway 12 months"⟩⟩ rfl

/-- C6 counterexample: a direct `train_model` failure (the model raises a
training error) is a failure path of a public operation, yet it appends
**nothing** to the error log — `train_model`'s except block only calls
`logging.error` — falsifying the claim that every failure path appends
exactly one ErrorLogEntry. -/
theorem errorLog_discipline_counterexample :
    (train_model envTrainFail [txn0] stConn).1 =
      .error (.other "TrainingError" "schema mismatch") ∧
    (train_model envTrainFail [txn0] stConn).2.errorLog = [] ∧
    ¬ ((train_model envTrainFail [txn0] stConn).2.errorLog.length
        = stConn.errorLog.length + 1) := by
  refine ⟨rfl, rfl, ?_⟩
  intro h
  rw [show (train_model envTrainFail [txn0] stConn).2.errorLog = [] from rfl] at h
  simp [stConn, st0] at h

/-- C6 amended: the error log is append-only (no operation ever removes
entries), but only `fetch_financial_data`, `predict_cashflow`, and
`run_analysis` append a `(current timestamp, message)` entry in their
own failure handler (exactly one each); `connect_to_api`, `train_model`,
and `generate_insights` never touch the error log, and
`update_knowledge_base`'s own handler appends nothing — at most one
entry arrives from its nested predict/fetch calls, carrying the failing
message.  In detail, for every environment and state: connect leaves the
log unchanged; fetch on failure appends exactly `[(now, str(e))]` and on
success nothing; train leaves the log unchanged; predict on failure
appends exactly `[(now, str(e))]` and on success nothing; insights
leaves it unchanged; update-knowledge-base extends it by at most one
entry whose message is the failing error's; and `run_analysis` extends
it only on failure, by entries that all carry the failing message, the
last added by its own handler. -/
theorem errorLog_discipline_amended (env : Env) (st : St) :
    (∀ s k, (connect_to_api s k st).2.errorLog = st.errorLog) ∧
    (∀ a b e, (fetch_financial_data env a b st).1 = .error e →
       (fetch_financial_data env a b st).2.errorLog =
         st.errorLog ++ [(st.clock, e.msg)]) ∧
    (∀ a b d, (fetch_financial_data env a b st).1 = .ok d →
       (fetch_financial_data env a b st).2.errorLog = st.errorLog) ∧
    (∀ data, (train_model env data st).2.errorLog = st.errorLog) ∧
    (∀ days e, (predict_cashflow env days st).1 = .error e →
       (predict_cashflow env days st).2.errorLog =
         st.errorLog ++ [(st.clock, e.msg)]) ∧
    (∀ days p, (predict_cashflow env days st).1 = .ok p →
       (predict_cashflow env days st).2.errorLog = st.errorLog) ∧
    ((generate_insights env st).2.errorLog = st.errorLog) ∧
    (∃ L, (update_knowledge_base env st).2.errorLog = st.errorLog ++ L ∧
       L.length ≤ 1 ∧
       (∀ e, (update_knowledge_base env st).1 = .error e →
         ∀ q ∈ L, q.2 = e.msg)) ∧
    (∀ r, (run_analysis env st).1 = .ok r →
       (run_analysis env st).2.errorLog = st.errorLog) ∧
    (∀ e, (run_analysis env st).1 = .error e →
       ∃ L t, (run_analysis env st).2.errorLog = st.errorLog ++ L ++ [(t, e.msg)] ∧
         ∀ q ∈ L, q.2 = e.msg) := by
  refine ⟨?_, ?_, ?_, ?_, ?_, ?_, ?_, ?_, ?_, ?_⟩
  · intro s k
    simp only [connect_to_api]
    split
    · rfl
    · split <;> rfl
  · intro a b e he
    cases hA : st.apiWrapper with
    | none =>
        simp [fetch_financial_data, hA, logFetchFailure] at he ⊢
        subst he
        simp [Exc.msg]
    | some c =>
        cases hf : env.fetch st.trace.length with
        | error e0 =>
            simp [fetch_financial_data, hA, hf, logFetchFailure] at he ⊢
            subst he
            rfl
        | ok d =>
            simp [fetch_financial_data, hA, hf] at he
  · intro a b d hd
    cases hA : st.apiWrapper with
    | none => simp [fetch_financial_data, hA, logFetchFailure] at hd
    | some c =>
        cases hf : env.fetch st.trace.length with
        | error e0 => simp [fetch_financial_data, hA, hf, logFetchFailure] at hd
        | ok d0 => simp [fetch_financial_data, hA, hf]
  · intro data
    cases data with
    | nil => rfl
    | cons x xs =>
        cases ht : env.train st.trace.length with
        | error e0 => simp [train_model, modelTrain, ht]
        | ok u0 => cases u0; simp [train_model, modelTrain, ht]
  · intro days e he
    cases hT : st.modelTrained with
    | false =>
        simp [predict_cashflow, modelPredict, hT] at he ⊢
        subst he
        rfl
    | true =>
        cases hp : env.predict st.trace.length days with
        | error e0 =>
            simp [predict_cashflow, modelPredict, hT, hp] at he ⊢
            subst he
            rfl
        | ok p0 => simp [predict_cashflow, modelPredict, hT, hp] at he
  · intro days p hp0
    cases hT : st.modelTrained with
    | false => simp [predict_cashflow, modelPredict, hT] at hp0
    | true =>
        cases hp : env.predict st.trace.length days with
        | error e0 => simp [predict_cashflow, modelPredict, hT, hp] at hp0
        | ok p0 => simp [predict_cashflow, modelPredict, hT, hp]
  · cases hT : st.modelTrained with
    | false => simp [generate_insights, modelInsights, hT]
    | true =>
        cases hi : env.insights st.trace.length with
        | error e0 => simp [generate_insights, modelInsights, hT, hi]
        | ok i0 => simp [generate_insights, modelInsights, hT, hi]
  · cases hT : st.modelTrained with
    | false =>
        refine ⟨[(st.clock, notTrainedMsg)], ?_, by norm_num, ?_⟩
        · simp [update_knowledge_base, predict_cashflow, modelPredict, hT,
            logKbFailure, Exc.msg]
        · intro e he q hq
          simp [update_knowledge_base, predict_cashflow, modelPredict, hT,
            logKbFailure] at he
          subst he
          simp at hq
          simp [hq, Exc.msg]
    | true =>
        cases hp : env.predict st.trace.length 30 with
        | error e0 =>
            refine ⟨[(st.clock, e0.msg)], ?_, by norm_num, ?_⟩
            · simp [update_knowledge_base, predict_cashflow, modelPredict, hT, hp,
                logKbFailure]
            · intro e he q hq
              simp [update_knowledge_base, predict_cashflow, modelPredict, hT, hp,
                logKbFailure] at he
              subst he
              simp at hq
              simp [hq]
        | ok p0 =>
            cases hA : st.apiWrapper with
            | none =>
                refine ⟨[(st.clock + 2, noneGetTransactionsMsg)], ?_, by norm_num, ?_⟩
                · simp [update_knowledge_base, predict_cashflow, modelPredict,
                    fetch_financial_data, now, hT, hp, hA, logFetchFailure,
                    logKbFailure, add_assoc, Exc.msg]
                · intro e he q hq
                  simp [update_knowledge_base, predict_cashflow, modelPredict,
                    fetch_financial_data, now, hT, hp, hA, logFetchFailure,
                    logKbFailure] at he
                  subst he
                  simp at hq
                  simp [hq, Exc.msg]
            | some c =>
                cases hf : env.fetch (st.trace.length + 1) with
                | error e0 =>
                    refine ⟨[(st.clock + 2, e0.msg)], ?_, by norm_num, ?_⟩
                    · simp [update_knowledge_base, predict_cashflow, modelPredict,
                        fetch_financial_data, now, hT, hp, hA, hf, logFetchFailure,
                        logKbFailure, add_assoc]
                    · intro e he q hq
                      simp [update_knowledge_base, predict_cashflow, modelPredict,
                        fetch_financial_data, now, hT, hp, hA, hf, logFetchFailure,
                        logKbFailure] at he
                      subst he
                      simp at hq
                      simp [hq]
                | ok d0 =>
                    cases hkb : env.kbUpd (st.trace.length + 2) with
                    | error e0 =>
                        refine ⟨[], ?_, by norm_num, fun e he q hq => absurd hq (by simp)⟩
                        simp [update_knowledge_base, predict_cashflow, modelPredict,
                          fetch_financial_data, knowledgeBaseUpdate, now, hT, hp, hA,
                          hf, hkb, logKbFailure]
                    | ok u1 =>
                        cases u1
                        refine ⟨[], ?_, by norm_num, fun e he q hq => absurd hq (by simp)⟩
                        simp [update_knowledge_base, predict_cashflow, modelPredict,
                          fetch_financial_data, knowledgeBaseUpdate, now, hT, hp, hA,
                          hf, hkb, logKbFailure]
  · intro r hr
    exact ((run_analysis_char env st).1 r hr).2
  · intro e he
    exact ((run_analysis_char env st).2 e he).2

/-- Witness for C6's amended claim: concretely, a failing `train_model`
leaves the error log unchanged while a failing `predict_cashflow`
appends exactly one current-timestamp entry with the failure's message. -/
theorem errorLog_discipline_amended_witness :
    (train_model envTrainFail [txn0] stConn).2.errorLog = stConn.errorLog ∧
    (predict_cashflow envPredictFail 30 stTrained).2.errorLog =
      stTrained.errorLog ++
        [(stTrained.clock, (Exc.other "PredictionError" "prediction blew up").msg)] := by
  have h1 := errorLog_discipline_amended envTrainFail stConn
  have h2 := errorLog_discipline_amended envPredictFail stTrained
  exact ⟨h1.2.2.2.1 [txn0],
    h2.2.2.2.2.1 30 (.other "PredictionError" "prediction blew up") rfl⟩
